import Mathlib

/-!
Verification of the faneX-ID integrations repository: a shallow embedding of
the plugin contract and the pieces of plugin code that the specification's
claims are about, together with theorems settling each claim.

Conventions of the embedding:
* Python optional strings are `Option String`; Python truthiness of such a
  value (`if not x`) is `strTruthy` (absent or empty is falsy).
* Network/SDK calls are oracles passed as function arguments; each operation
  returns its result together with the list of outbound calls it performed,
  so "no network call is attempted" is "the call trace is empty".
* Exceptions are `Except String`; the string is the error message.
-/

namespace Integrations

/-- Python truthiness of an optional string: `None` and `""` are falsy. -/
def strTruthy : Option String → Bool
  | none => false
  | some s => s != ""

/-- Python `a or b` on optional strings: `b` when `a` is falsy. -/
def pyOrStr (a b : Option String) : Option String :=
  if strTruthy a then a else b

/-- Python `a or d` where `a` is an optional integer: `None` and `0` are falsy. -/
def pyOrInt (a : Option Int) (d : Int) : Int :=
  match a with
  | none => d
  | some v => if v = 0 then d else v

/-- Python `a or d` where `a` is an optional float (modelled as a rational):
`None` and `0.0` are falsy. -/
def pyOrRat (a : Option ℚ) (d : ℚ) : ℚ :=
  match a with
  | none => d
  | some v => if v = 0 then d else v

/-- Python `s.upper()`. -/
def pyUpper (s : String) : String := String.mk (s.toList.map Char.toUpper)

/-! ## AI helper (`src/integrations/ai-assistant/ai_helper.py`)

`AIHelper.__init__` stores the configuration; `AIConfig` holds the fields the
dispatcher reads.  The three `_query_*` backends are modelled with a network
oracle `net : NetCall → NetResponse` standing for the vendor SDK; each backend
first performs its credential checks (raising before any call) and then makes
exactly one call. -/

namespace AIHelper

/-- Constructor arguments of `AIHelper.__init__` that the dispatcher reads. -/
structure AIConfig where
  gemini_api_key : Option String
  chatgpt_api_key : Option String
  azure_openai_api_key : Option String
  azure_openai_endpoint : Option String
  azure_openai_deployment : Option String
  default_provider : String
  gemini_model : String
  chatgpt_model : String
  azure_openai_model : Option String
  max_tokens : Int
  temperature : ℚ
deriving Repr, DecidableEq

/-- One outbound SDK call: which backend is hit and with which parameters.
`prompt` is the text sent (for Gemini, the system prompt is folded into it;
for the chat backends the system prompt travels separately). -/
structure NetCall where
  provider : String
  prompt : String
  system_prompt : Option String
  max_tokens : Int
  temperature : ℚ
deriving Repr, DecidableEq

/-- A backend's answer: free text plus optional token-usage accounting
(`None` models a response object without a usage attribute). -/
structure NetResponse where
  text : String
  usage : Option Nat
deriving Repr, DecidableEq

/-- The common normalized result shape `{text, provider, model, tokens_used}`
returned by every backend (exactly these four fields). -/
structure AIResult where
  text : String
  provider : String
  model : String
  tokens_used : Nat
deriving Repr, DecidableEq

/-- `AIHelper._select_best_provider`: default provider first when its key is
set, then the fixed fallback order gemini, chatgpt, azure; error when no key
is configured. -/
def select_best_provider (cfg : AIConfig) : Except String String :=
  if cfg.default_provider == "gemini" && strTruthy cfg.gemini_api_key then
    Except.ok "gemini"
  else if cfg.default_provider == "chatgpt" && strTruthy cfg.chatgpt_api_key then
    Except.ok "chatgpt"
  else if cfg.default_provider == "azure" && strTruthy cfg.azure_openai_api_key then
    Except.ok "azure"
  else if strTruthy cfg.gemini_api_key then
    Except.ok "gemini"
  else if strTruthy cfg.chatgpt_api_key then
    Except.ok "chatgpt"
  else if strTruthy cfg.azure_openai_api_key then
    Except.ok "azure"
  else
    Except.error "No AI provider API keys configured"

/-- `AIHelper._query_gemini`: key check, then one call; the system prompt is
concatenated in front of the prompt; `tokens_used` falls back to 0 when the
response carries no usage metadata. -/
def query_gemini (cfg : AIConfig) (net : NetCall → NetResponse)
    (prompt : String) (system_prompt : Option String)
    (max_tokens : Int) (temperature : ℚ) :
    Except String AIResult × List NetCall :=
  if !(strTruthy cfg.gemini_api_key) then
    (Except.error "Gemini API key not configured", [])
  else
    let full_prompt :=
      match system_prompt with
      | some sp => sp ++ "\n\n" ++ prompt
      | none => prompt
    let call : NetCall := ⟨"gemini", full_prompt, none, max_tokens, temperature⟩
    let resp := net call
    (Except.ok ⟨resp.text, "gemini", cfg.gemini_model, resp.usage.getD 0⟩, [call])

/-- `AIHelper._query_chatgpt`: key check, then one call. -/
def query_chatgpt (cfg : AIConfig) (net : NetCall → NetResponse)
    (prompt : String) (system_prompt : Option String)
    (max_tokens : Int) (temperature : ℚ) :
    Except String AIResult × List NetCall :=
  if !(strTruthy cfg.chatgpt_api_key) then
    (Except.error "ChatGPT API key not configured", [])
  else
    let call : NetCall := ⟨"chatgpt", prompt, system_prompt, max_tokens, temperature⟩
    let resp := net call
    (Except.ok ⟨resp.text, "chatgpt", cfg.chatgpt_model, resp.usage.getD 0⟩, [call])

/-- `AIHelper.__init__` line `self.azure_openai_model = azure_openai_model or
azure_openai_deployment`. -/
def self_azure_openai_model (cfg : AIConfig) : Option String :=
  pyOrStr cfg.azure_openai_model cfg.azure_openai_deployment

/-- `AIHelper._query_azure_openai`: three credential checks in source order,
then one call; the reported model is
`self.azure_openai_model or self.azure_openai_deployment`. -/
def query_azure_openai (cfg : AIConfig) (net : NetCall → NetResponse)
    (prompt : String) (system_prompt : Option String)
    (max_tokens : Int) (temperature : ℚ) :
    Except String AIResult × List NetCall :=
  if !(strTruthy cfg.azure_openai_api_key) then
    (Except.error "Azure OpenAI API key not configured", [])
  else if !(strTruthy cfg.azure_openai_endpoint) then
    (Except.error "Azure OpenAI endpoint not configured", [])
  else if !(strTruthy cfg.azure_openai_deployment) then
    (Except.error "Azure OpenAI deployment name not configured", [])
  else
    let call : NetCall := ⟨"azure", prompt, system_prompt, max_tokens, temperature⟩
    let resp := net call
    let model := (pyOrStr (self_azure_openai_model cfg) cfg.azure_openai_deployment).getD ""
    (Except.ok ⟨resp.text, "azure", model, resp.usage.getD 0⟩, [call])

/-- `AIHelper.query`: resolve `"auto"` through `_select_best_provider`, then
route on the provider name; caller overrides go through Python `or`
(falsy values replaced by the configured defaults). -/
def query (cfg : AIConfig) (net : NetCall → NetResponse)
    (prompt : String) (provider : String) (system_prompt : Option String)
    (max_tokens : Option Int) (temperature : Option ℚ) :
    Except String AIResult × List NetCall :=
  let resolved : Except String String :=
    if provider == "auto" then select_best_provider cfg else Except.ok provider
  match resolved with
  | Except.error e => (Except.error e, [])
  | Except.ok p =>
    if p == "gemini" then
      query_gemini cfg net prompt system_prompt
        (pyOrInt max_tokens cfg.max_tokens) (pyOrRat temperature cfg.temperature)
    else if p == "chatgpt" then
      query_chatgpt cfg net prompt system_prompt
        (pyOrInt max_tokens cfg.max_tokens) (pyOrRat temperature cfg.temperature)
    else if p == "azure" || p == "azure_openai" then
      query_azure_openai cfg net prompt system_prompt
        (pyOrInt max_tokens cfg.max_tokens) (pyOrRat temperature cfg.temperature)
    else
      (Except.error ("Unknown provider: " ++ p), [])

/-- The API key the dispatcher's selection logic associates with a canonical
provider name (`_select_best_provider` checks only the key, not the azure
endpoint or deployment). -/
def provider_key (cfg : AIConfig) (p : String) : Bool :=
  if p == "gemini" then strTruthy cfg.gemini_api_key
  else if p == "chatgpt" then strTruthy cfg.chatgpt_api_key
  else if p == "azure" then strTruthy cfg.azure_openai_api_key
  else false

/-- `AIHelper.is_provider_available`: full credential check per provider. -/
def is_provider_available (cfg : AIConfig) (p : String) : Bool :=
  if p == "gemini" then strTruthy cfg.gemini_api_key
  else if p == "chatgpt" then strTruthy cfg.chatgpt_api_key
  else if p == "azure" || p == "azure_openai" then
    strTruthy cfg.azure_openai_api_key && strTruthy cfg.azure_openai_endpoint
      && strTruthy cfg.azure_openai_deployment
  else false

/-- The fixed fallback priority order of `_select_best_provider`. -/
def priority_order : List String := ["gemini", "chatgpt", "azure"]

end AIHelper

/-! ## JSON values and `json.loads`

`JVal` models the Python `json` module's value universe for the fragment the
plugins exchange (objects, arrays, strings without escape sequences, integer
numbers, booleans, null).  `json_loads` is a strict parser: the whole input
must be exactly one JSON value, possibly surrounded by whitespace, or the
result is `none` (Python `json.loads` raises `JSONDecodeError` on trailing
data). -/

inductive JVal where
  | null : JVal
  | bool (b : Bool) : JVal
  | num (n : Int) : JVal
  | str (s : String) : JVal
  | arr (xs : List JVal) : JVal
  | obj (kvs : List (String × JVal)) : JVal
deriving Repr

/-- JSON whitespace skipping (space, newline, tab, carriage return). -/
def skipJsonWs (cs : List Char) : List Char :=
  cs.dropWhile (fun c => c == ' ' || c == '\n' || c == '\t' || c == '\r')

/-- Digits to a natural number. -/
def digitsToNat (ds : List Char) : Nat :=
  ds.foldl (fun a c => a * 10 + (c.toNat - 48)) 0

/-- A JSON string body (no escape support in this fragment): characters up to
the closing quote. -/
def parseJsonString (cs : List Char) : Option (String × List Char) :=
  let content := cs.takeWhile (fun c => c != '"' && c != '\\')
  match cs.drop content.length with
  | '"' :: r => some (String.mk content, r)
  | _ => none

/-- An integer JSON number. -/
def parseJsonInt (cs : List Char) : Option (JVal × List Char) :=
  match cs with
  | '-' :: r =>
    let ds := r.takeWhile Char.isDigit
    if ds.isEmpty then none
    else some (JVal.num (-(digitsToNat ds : Int)), r.drop ds.length)
  | _ =>
    let ds := cs.takeWhile Char.isDigit
    if ds.isEmpty then none
    else some (JVal.num (digitsToNat ds), cs.drop ds.length)

mutual

/-- Parse one JSON value; the fuel bounds recursion depth. -/
def jparse : Nat → List Char → Option (JVal × List Char)
  | 0, _ => none
  | fuel + 1, cs0 =>
    match skipJsonWs cs0 with
    | [] => none
    | c :: rest =>
      if c == '"' then
        match parseJsonString rest with
        | some (s, r) => some (JVal.str s, r)
        | none => none
      else if c == '-' || c.isDigit then
        parseJsonInt (c :: rest)
      else if c == 'n' then
        if rest.take 3 == ['u', 'l', 'l'] then some (JVal.null, rest.drop 3) else none
      else if c == 't' then
        if rest.take 3 == ['r', 'u', 'e'] then some (JVal.bool true, rest.drop 3) else none
      else if c == 'f' then
        if rest.take 4 == ['a', 'l', 's', 'e'] then some (JVal.bool false, rest.drop 4)
        else none
      else if c == '{' then
        match skipJsonWs rest with
        | '}' :: r => some (JVal.obj [], r)
        | r =>
          match jobjMembers fuel r with
          | some (kvs, r2) => some (JVal.obj kvs, r2)
          | none => none
      else if c == '[' then
        match skipJsonWs rest with
        | ']' :: r => some (JVal.arr [], r)
        | r =>
          match jarrItems fuel r with
          | some (xs, r2) => some (JVal.arr xs, r2)
          | none => none
      else none

/-- Parse the members of a JSON object after the opening brace. -/
def jobjMembers : Nat → List Char → Option (List (String × JVal) × List Char)
  | 0, _ => none
  | fuel + 1, cs =>
    match skipJsonWs cs with
    | '"' :: r =>
      match parseJsonString r with
      | some (k, r1) =>
        match skipJsonWs r1 with
        | ':' :: r2 =>
          match jparse fuel r2 with
          | some (v, r3) =>
            match skipJsonWs r3 with
            | ',' :: r4 =>
              match jobjMembers fuel r4 with
              | some (kvs, r5) => some ((k, v) :: kvs, r5)
              | none => none
            | '}' :: r4 => some ([(k, v)], r4)
            | _ => none
          | none => none
        | _ => none
      | none => none
    | _ => none

/-- Parse the items of a JSON array after the opening bracket. -/
def jarrItems : Nat → List Char → Option (List JVal × List Char)
  | 0, _ => none
  | fuel + 1, cs =>
    match jparse fuel cs with
    | some (v, r) =>
      match skipJsonWs r with
      | ',' :: r2 =>
        match jarrItems fuel r2 with
        | some (xs, r3) => some (v :: xs, r3)
        | none => none
      | ']' :: r2 => some ([v], r2)
      | _ => none
    | none => none

end

/-- `json.loads`: strict whole-input parse; trailing non-whitespace fails. -/
def json_loads (s : String) : Option JVal :=
  match jparse (2 * s.length + 2) s.toList with
  | some (v, r) => if (skipJsonWs r).isEmpty then some v else none
  | none => none

/-- Python truthiness of a JSON value (empty containers, `0`, `""`, `null`,
`false` are falsy). -/
def jvalTruthy : JVal → Bool
  | JVal.null => false
  | JVal.bool b => b
  | JVal.num n => n != 0
  | JVal.str s => s != ""
  | JVal.arr xs => !xs.isEmpty
  | JVal.obj kvs => !kvs.isEmpty

/-! ## AI assistant plugin (`src/ai-assistant/integration.py`)

`_extract_json_from_response` runs `re.search(r'\x7b[\s\S]*\x7d', text)` —
the leftmost-then-greedy match is the span from the first opening brace to
the last closing brace — tries `json.loads` on it, then falls back to the
fenced-code-block pattern, and returns `None` when neither parses. -/

namespace AIAssistant

/-- Index of the first occurrence of a character. -/
def firstIdxOf : List Char → Char → Option Nat
  | [], _ => none
  | x :: t, c => if x == c then some 0 else (firstIdxOf t c).map (fun n => n + 1)

/-- Index of the last occurrence of a character. -/
def lastIdxOf (cs : List Char) (c : Char) : Option Nat :=
  (firstIdxOf cs.reverse c).map (fun k => cs.length - 1 - k)

/-- The match of `re.search(r'\x7b[\s\S]*\x7d', cs)` over a character list:
from the first `\x7b` to the last `\x7d` (greedy), `none` when no such span
exists. -/
def braceSpanList (cs : List Char) : Option (List Char) :=
  match firstIdxOf cs '{', lastIdxOf cs '}' with
  | some i, some j =>
    if i < j then some ((cs.drop i).take (j - i + 1)) else none
  | _, _ => none

/-- The match of `re.search(r'\x7b[\s\S]*\x7d', s)`: from the first `\x7b` to
the last `\x7d` (greedy), `none` when no such span exists. -/
def brace_span (s : String) : Option String :=
  (braceSpanList s.toList).map String.mk

/-- Can the group of the fenced pattern close at index `j`: a closing brace
there, followed by whitespace and three backticks. -/
def closeableAt (cs : List Char) (j : Nat) : Bool :=
  (cs.get? j == some '}') && ("```".toList).isPrefixOf (skipJsonWs (cs.drop (j + 1)))

/-- Largest index `≤ j` where the fenced group can close (greedy `[\s\S]*`). -/
def lastCloseFrom (cs : List Char) : Nat → Option Nat
  | 0 => if closeableAt cs 0 then some 0 else none
  | j + 1 => if closeableAt cs (j + 1) then some (j + 1) else lastCloseFrom cs j

/-- One anchored attempt of `(?:json)?\s*(\x7b[\s\S]*\x7d)\s*` three backticks,
with `cs` positioned just after an opening fence. -/
def fencedTryAt (cs : List Char) : Option (List Char) :=
  let cs1 := if ("json".toList).isPrefixOf cs then cs.drop 4 else cs
  let cs2 := skipJsonWs cs1
  match cs2 with
  | '{' :: _ =>
    match lastCloseFrom cs2 (cs2.length - 1) with
    | some j => some (cs2.take (j + 1))
    | none => none
  | _ => none

/-- Leftmost scan of `re.search` for the fenced pattern: try every position
that starts with an opening fence, leftmost first. -/
def fenced_search : Nat → List Char → Option (List Char)
  | 0, _ => none
  | fuel + 1, cs =>
    if ("```".toList).isPrefixOf cs then
      match fencedTryAt (cs.drop 3) with
      | some g => some g
      | none =>
        match cs with
        | [] => none
        | _ :: t => fenced_search fuel t
    else
      match cs with
      | [] => none
      | _ :: t => fenced_search fuel t

/-- The group captured by the fenced-code-block pattern, if any. -/
def fenced_span (s : String) : Option String :=
  (fenced_search (s.length + 1) s.toList).map String.mk

/-- `AIAssistantIntegration._extract_json_from_response`: brace span first,
fenced block second, `None` when neither parses as JSON. -/
def extract_json_from_response (s : String) : Option JVal :=
  let fromFence : Option JVal :=
    match fenced_span s with
    | some g => json_loads g
    | none => none
  match brace_span s with
  | some g =>
    match json_loads g with
    | some v => some v
    | none => fromFence
  | none => fromFence

/-- `enhance_workflow` envelope field `"enhanced_workflow": enhanced_workflow
or workflow` — the extracted value when truthy, the input workflow otherwise;
the envelope still carries `success: True`. -/
def enhance_workflow_result (workflow : JVal) (response_text : String) : JVal :=
  match extract_json_from_response response_text with
  | some v => if jvalTruthy v then v else workflow
  | none => workflow

/-- `generate_workflow` envelope field `"workflow"`: the extracted value,
possibly `None`, while `success` is `True`. -/
def generate_workflow_result (response_text : String) : Option JVal :=
  extract_json_from_response response_text

end AIAssistant

/-! ## Shared HTTP plumbing for the plugin embeddings -/

/-- An HTTP response as the plugins read it (`requests` response object):
status code and body text.  `raise_for_status` raises for codes `≥ 400`. -/
structure HttpResponse where
  status_code : Nat
  text : String
deriving Repr, DecidableEq

/-- Python `s.rstrip("/")`. -/
def rstripSlash (s : String) : String :=
  String.mk (s.toList.reverse.dropWhile (fun c => c == '/')).reverse

/-- Python `dict` lookup on an association list. -/
def dictLookup (d : List (String × String)) (k : String) : Option String :=
  (d.find? (fun kv => kv.1 == k)).map (fun kv => kv.2)

/-- Python `base.update(upd)`: existing keys keep their position with the new
value, new keys are appended. -/
def dictUpdate (base upd : List (String × String)) : List (String × String) :=
  base.map (fun kv =>
      match dictLookup upd kv.1 with
      | some v => (kv.1, v)
      | none => kv)
    ++ upd.filter (fun kv => (dictLookup base kv.1).isNone)

/-- Python `d[k] = v`. -/
def dictSet (d : List (String × String)) (k v : String) : List (String × String) :=
  if (dictLookup d k).isSome then
    d.map (fun kv => if kv.1 == k then (kv.1, v) else kv)
  else d ++ [(k, v)]

/-! ## Slack notifications plugin
(`src/integrations/slack-notifications/integration.py`)

`async_setup` registers its two services unconditionally and returns `True`;
it never looks at the configuration.  `send_message` checks `webhook_url` at
call time but uses `data.get("message", "")`, so a missing message is sent as
empty text. -/

namespace SlackNotifications

/-- Configuration keys the Slack plugin reads. -/
structure SlackConfig where
  webhook_url : Option String
  default_channel : Option String
deriving Repr, DecidableEq

/-- Request envelope fields of `send_message` (absent key is `none`). -/
structure MessageData where
  channel : Option String
  message : Option String
  username : Option String
  icon_emoji : Option String
deriving Repr, DecidableEq

/-- The JSON payload posted to the Slack webhook. -/
structure SlackPayload where
  channel : String
  text : String
  username : String
  icon_emoji : String
deriving Repr, DecidableEq

/-- One outbound `requests.post` of the Slack plugin. -/
structure SlackPost where
  url : String
  payload : SlackPayload
deriving Repr, DecidableEq

/-- The success envelope of `send_message`. -/
structure SendResult where
  status : String
  channel : String
deriving Repr, DecidableEq

/-- `SlackIntegration.async_setup`: registers both services and returns
`True`, regardless of the configuration. -/
def async_setup (_cfg : SlackConfig) : Bool × List String :=
  (true, ["send_message", "send_alert"])

/-- `SlackIntegration.send_message`. -/
def send_message (cfg : SlackConfig) (http : SlackPost → HttpResponse)
    (data : MessageData) : Except String SendResult × List SlackPost :=
  if !(strTruthy cfg.webhook_url) then
    (Except.error "webhook_url not configured", [])
  else
    let webhook_url := cfg.webhook_url.getD ""
    let channel :=
      (pyOrStr data.channel (some (cfg.default_channel.getD "#general"))).getD ""
    let message := data.message.getD ""
    let username := data.username.getD "faneX-ID"
    let icon_emoji := data.icon_emoji.getD ":robot_face:"
    let req : SlackPost := ⟨webhook_url, ⟨channel, message, username, icon_emoji⟩⟩
    let resp := http req
    if resp.status_code ≥ 400 then (Except.error "HTTPError", [req])
    else (Except.ok ⟨"sent", channel⟩, [req])

end SlackNotifications

/-! ## Mattermost plugin (`src/integrations/mattermost/integration.py`)

`async_setup` registers its three services unconditionally and returns
`True`.  `send_message` resolves the base URL, validates `channel_id` and
`message`, and builds headers — all of which raise before the single
`requests.post`. -/

namespace Mattermost

/-- Configuration keys the Mattermost plugin reads. -/
structure MmConfig where
  api_token : Option String
  server_url : Option String
deriving Repr, DecidableEq

/-- Request envelope fields of `send_message`. -/
structure MessageData where
  channel_id : Option String
  message : Option String
deriving Repr, DecidableEq

/-- One outbound `requests.post` of `send_message`. -/
structure MmPost where
  url : String
  channel_id : String
  message : String
  headers : List (String × String)
deriving Repr, DecidableEq

/-- The Mattermost server's reply: status plus the `id` field of the response
JSON, when present. -/
structure MmResponse where
  status_code : Nat
  json_id : Option String
deriving Repr, DecidableEq

/-- The success envelope of `send_message`. -/
structure SendResult where
  success : Bool
  post_id : Option String
deriving Repr, DecidableEq

/-- `MattermostIntegration.async_setup`: registers all three services and
returns `True`, regardless of the configuration. -/
def async_setup (_cfg : MmConfig) : Bool × List String :=
  (true, ["send_message", "create_channel", "get_user"])

/-- `MattermostIntegration._get_base_url`. -/
def get_base_url (cfg : MmConfig) : Except String String :=
  let url := rstripSlash (cfg.server_url.getD "")
  if url == "" then Except.error "Mattermost server URL not configured"
  else Except.ok url

/-- `MattermostIntegration._get_headers`. -/
def get_headers (cfg : MmConfig) : Except String (List (String × String)) :=
  if !(strTruthy cfg.api_token) then
    Except.error "Mattermost API token not configured"
  else
    Except.ok [("Authorization", "Bearer " ++ cfg.api_token.getD ""),
               ("Content-Type", "application/json")]

/-- `MattermostIntegration.send_message`. -/
def send_message (cfg : MmConfig) (http : MmPost → MmResponse)
    (data : MessageData) : Except String SendResult × List MmPost :=
  match get_base_url cfg with
  | Except.error e => (Except.error e, [])
  | Except.ok base_url =>
    let channel_id := data.channel_id.getD ""
    let message := data.message.getD ""
    if channel_id == "" || message == "" then
      (Except.error "channel_id and message required", [])
    else
      match get_headers cfg with
      | Except.error e => (Except.error e, [])
      | Except.ok headers =>
        let req : MmPost := ⟨base_url ++ "/api/v4/posts", channel_id, message, headers⟩
        let resp := http req
        if resp.status_code ≥ 400 then (Except.error "HTTPError", [req])
        else (Except.ok ⟨true, resp.json_id⟩, [req])

end Mattermost

/-! ## NetBox plugin (`src/netbox/integration.py`)

`async_setup` validates `base_url` and `api_token` and returns `False`
before any registration when either is missing. -/

namespace NetBox

/-- Configuration keys `NetBoxIntegration.async_setup` reads. -/
structure NbConfig where
  base_url : Option String
  api_token : Option String
  verify_ssl : Option Bool
deriving Repr, DecidableEq

/-- `NetBoxIntegration.async_setup`: config check first, then the eight
service registrations. -/
def async_setup (cfg : NbConfig) : Bool × List String :=
  let base_url := rstripSlash (cfg.base_url.getD "")
  let api_token := cfg.api_token.getD ""
  if base_url == "" || api_token == "" then (false, [])
  else
    (true,
     ["get_devices", "get_device", "get_ip_addresses", "get_virtual_machines",
      "create_device", "update_device", "delete_device", "test_connection"])

end NetBox

/-! ## Microsoft Graph Exchange plugin
(`src/microsoft-graph-exchange/integration.py`)

`async_setup` looks up the base `microsoft_graph` plugin through
`get_dependency`; a missing dependency returns `False` before any
registration. -/

namespace GraphExchange

/-- `MicrosoftGraphExchangeIntegration.async_setup`, with the result of
`get_dependency("microsoft_graph")` supplied by the host (`none` models the
lookup finding no instance). -/
def async_setup {G : Type} (graph_integration : Option G) : Bool × List String :=
  match graph_integration with
  | none => (false, [])
  | some _ => (true, ["send_email", "get_messages", "create_calendar_event"])

end GraphExchange

/-! ## Generic webhook plugin
(`src/integrations/webhook-generic/integration.py`) -/

namespace WebhookGeneric

/-- Configuration keys `send_webhook` reads. -/
structure WhConfig where
  default_url : Option String
  timeout : Option Int
  default_headers : List (String × String)
deriving Repr, DecidableEq

/-- Request envelope fields of `send_webhook`. -/
structure WhData where
  url : Option String
  method : Option String
  payload : Option JVal
  headers : Option (List (String × String))
deriving Repr

/-- One outbound `requests` call: `json_body` is the `json=` argument
(POST/PUT/PATCH), `params` the `params=` argument (GET). -/
structure WhRequest where
  method : String
  url : String
  json_body : Option JVal
  params : Option JVal
  headers : List (String × String)
deriving Repr

/-- The success envelope of `send_webhook`. -/
structure WhResult where
  status : String
  status_code : Nat
  response : Option String
deriving Repr, DecidableEq

/-- `WebhookGenericIntegration.send_webhook`. -/
def send_webhook (cfg : WhConfig) (http : WhRequest → HttpResponse)
    (data : WhData) : Except String WhResult × List WhRequest :=
  let url_opt := pyOrStr data.url cfg.default_url
  if !(strTruthy url_opt) then
    (Except.error "webhook URL not provided and no default_url configured", [])
  else
    let url := url_opt.getD ""
    let method := pyUpper (data.method.getD "POST")
    let payload := data.payload.getD (JVal.obj [])
    let custom_headers := data.headers.getD []
    let headers0 := dictUpdate cfg.default_headers custom_headers
    let headers :=
      if (dictLookup headers0 "Content-Type").isNone
          && (method == "POST" || method == "PUT" || method == "PATCH") then
        dictSet headers0 "Content-Type" "application/json"
      else headers0
    let mkreq : Option WhRequest :=
      if method == "GET" then some ⟨"GET", url, none, some payload, headers⟩
      else if method == "POST" then some ⟨"POST", url, some payload, none, headers⟩
      else if method == "PUT" then some ⟨"PUT", url, some payload, none, headers⟩
      else if method == "PATCH" then some ⟨"PATCH", url, some payload, none, headers⟩
      else if method == "DELETE" then some ⟨"DELETE", url, none, none, headers⟩
      else none
    match mkreq with
    | none => (Except.error ("Unsupported HTTP method: " ++ method), [])
    | some req =>
      let resp := http req
      if resp.status_code ≥ 400 then (Except.error "HTTPError", [req])
      else
        (Except.ok ⟨"sent", resp.status_code,
          if resp.text == "" then none else some (resp.text.take 500)⟩, [req])

end WebhookGeneric

/-! ## Docker plugin (`src/integrations/docker/integration.py`)

`_get_client` caches one client per host string in `self._clients`.  Client
handles are modelled as fresh natural numbers drawn from a counter; the
`constructed` trace records every `docker.DockerClient(...)` construction,
and the `mkFails` oracle models the constructor raising. -/

namespace Docker

/-- The mutable state `_get_client` touches: the `_clients` cache, a fresh
handle counter, and the construction trace. -/
structure DockerState where
  clients : List (String × Nat)
  next_id : Nat
  constructed : List String
deriving Repr, DecidableEq

/-- Cache lookup (`host in self._clients` / `self._clients[host]`). -/
def lookupClient (l : List (String × Nat)) (h : String) : Option Nat :=
  (l.find? (fun kv => kv.1 == h)).map (fun kv => kv.2)

/-- The `base_url` derivation inside `_get_client`. -/
def base_url_for (host : String) : String :=
  if host.startsWith "unix://" || host.startsWith "tcp://"
      || host.startsWith "http://" || host.startsWith "https://" then host
  else if host == "local" || host == "localhost" then "unix:///var/run/docker.sock"
  else if host.contains ':' then "tcp://" ++ host
  else "tcp://" ++ host ++ ":2375"

/-- `DockerIntegration._get_client`: return the cached client when present;
otherwise construct one, cache it, and return it (a constructor failure
raises and leaves the cache unchanged). -/
def get_client (mkFails : String → Bool) (s : DockerState) (host : String) :
    Except String Nat × DockerState :=
  match lookupClient s.clients host with
  | some c => (Except.ok c, s)
  | none =>
    let base_url := base_url_for host
    if mkFails base_url then
      (Except.error ("Failed to create Docker client for " ++ host), s)
    else
      (Except.ok s.next_id,
       ⟨s.clients ++ [(host, s.next_id)], s.next_id + 1, s.constructed ++ [base_url]⟩)

end Docker

/-! ## Concrete sample inputs used to instantiate the theorems -/

namespace Samples

/-- A backend oracle answering every call with fixed text and no usage data. -/
def netA : AIHelper.NetCall → AIHelper.NetResponse := fun _ => ⟨"ok", none⟩

/-- Default provider `chatgpt`, but only the Gemini key configured. -/
def cfgOnlyGemini : AIHelper.AIConfig :=
  ⟨some "gk", none, none, none, none, "chatgpt", "gemini-pro", "gpt-4", none, 2000, 1⟩

/-- No API key configured at all. -/
def cfgNoKeys : AIHelper.AIConfig :=
  ⟨none, none, none, none, none, "gemini", "gemini-pro", "gpt-4", none, 2000, 1⟩

/-- Slack configuration with a webhook URL but nothing else. -/
def slackCfg : SlackNotifications.SlackConfig := ⟨some "https://hooks.example/x", none⟩

/-- An HTTP oracle accepting every Slack post. -/
def slackHttpOk : SlackNotifications.SlackPost → HttpResponse := fun _ => ⟨200, "ok"⟩

/-- A Slack `send_message` request without the `message` field. -/
def slackNoMessage : SlackNotifications.MessageData := ⟨none, none, none, none⟩

/-- A fully configured Mattermost plugin. -/
def mmCfg : Mattermost.MmConfig := ⟨some "tok", some "https://mm.example/"⟩

/-- An HTTP oracle accepting every Mattermost post. -/
def mmHttpOk : Mattermost.MmPost → Mattermost.MmResponse := fun _ => ⟨200, some "id1"⟩

/-- A Mattermost `send_message` request without the `message` field. -/
def mmNoMessage : Mattermost.MessageData := ⟨some "chan", none⟩

/-- A webhook plugin configuration with no defaults configured. -/
def whCfg : WebhookGeneric.WhConfig := ⟨none, none, []⟩

/-- An HTTP oracle accepting every webhook request with status 200. -/
def whHttpOk : WebhookGeneric.WhRequest → HttpResponse := fun _ => ⟨200, "done"⟩

/-- The spec's end-to-end webhook request:
`\x7b"url": "https://example.test/hook", "method": "POST", "payload": \x7b"a": 1\x7d\x7d`. -/
def whData : WebhookGeneric.WhData :=
  ⟨some "https://example.test/hook", some "POST", some (JVal.obj [("a", JVal.num 1)]), none⟩

/-- A fresh Docker plugin state (empty cache). -/
def dockerS0 : Docker.DockerState := ⟨[], 0, []⟩

/-- A Docker client constructor that never raises. -/
def dockerOk : String → Bool := fun _ => false

/-- An empty NetBox configuration. -/
def nbEmpty : NetBox.NbConfig := ⟨none, none, none⟩

end Samples

/-! # Theorems -/

namespace AIHelper

lemma select_ok_mem (cfg : AIConfig) {p : String}
    (h : select_best_provider cfg = Except.ok p) :
    p = "gemini" ∨ p = "chatgpt" ∨ p = "azure" := by
  unfold select_best_provider at h
  split_ifs at h <;> simp_all

lemma query_gemini_shape (cfg : AIConfig) (net : NetCall → NetResponse)
    (prompt : String) (sp : Option String) (mt : Int) (tp : ℚ)
    {r : AIResult} {calls : List NetCall}
    (h : query_gemini cfg net prompt sp mt tp = (Except.ok r, calls)) :
    ∃ call, calls = [call] ∧ call.provider = "gemini" ∧
      r = ⟨(net call).text, "gemini", cfg.gemini_model, ((net call).usage).getD 0⟩ := by
  unfold query_gemini at h
  split_ifs at h with hk
  · simp at h
  · simp only [Prod.mk.injEq, Except.ok.injEq] at h
    exact ⟨_, h.2.symm, rfl, h.1.symm⟩

lemma query_chatgpt_shape (cfg : AIConfig) (net : NetCall → NetResponse)
    (prompt : String) (sp : Option String) (mt : Int) (tp : ℚ)
    {r : AIResult} {calls : List NetCall}
    (h : query_chatgpt cfg net prompt sp mt tp = (Except.ok r, calls)) :
    ∃ call, calls = [call] ∧ call.provider = "chatgpt" ∧
      r = ⟨(net call).text, "chatgpt", cfg.chatgpt_model, ((net call).usage).getD 0⟩ := by
  unfold query_chatgpt at h
  split_ifs at h with hk
  · simp at h
  · simp only [Prod.mk.injEq, Except.ok.injEq] at h
    exact ⟨_, h.2.symm, rfl, h.1.symm⟩

lemma query_azure_shape (cfg : AIConfig) (net : NetCall → NetResponse)
    (prompt : String) (sp : Option String) (mt : Int) (tp : ℚ)
    {r : AIResult} {calls : List NetCall}
    (h : query_azure_openai cfg net prompt sp mt tp = (Except.ok r, calls)) :
    ∃ call, calls = [call] ∧ call.provider = "azure" ∧
      r = ⟨(net call).text, "azure",
        (pyOrStr (self_azure_openai_model cfg) cfg.azure_openai_deployment).getD "",
        ((net call).usage).getD 0⟩ := by
  unfold query_azure_openai at h
  split_ifs at h with h1 h2 h3
  · simp at h
  · simp at h
  · simp at h
  · simp only [Prod.mk.injEq, Except.ok.injEq] at h
    exact ⟨_, h.2.symm, rfl, h.1.symm⟩

lemma query_call_params (cfg : AIConfig) (net : NetCall → NetResponse)
    (prompt provider : String) (sp : Option String)
    (mt : Option Int) (tp : Option ℚ) :
    ∀ call ∈ (query cfg net prompt provider sp mt tp).2,
      call.max_tokens = pyOrInt mt cfg.max_tokens ∧
      call.temperature = pyOrRat tp cfg.temperature := by
  intro call hc
  unfold query at hc
  rcases hsel : (if provider == "auto" then select_best_provider cfg
      else Except.ok provider) with e | p <;> rw [hsel] at hc
  · simp at hc
  · dsimp only at hc
    split_ifs at hc <;>
      first
      | simp at hc
      | (simp only [query_gemini, query_chatgpt, query_azure_openai] at hc
         split_ifs at hc <;> simp_all)

/-- C1: with `provider="auto"`, `query` routes through
`_select_best_provider`, which picks the configured default provider when its
API key is present, otherwise the first key-bearing provider in the fixed
order gemini, chatgpt, azure, and raises when no key is configured. -/
theorem auto_dispatch_selects_default_then_fallback
    (cfg : AIConfig) (net : NetCall → NetResponse)
    (prompt : String) (sp : Option String) (mt : Option Int) (tp : Option ℚ)
    (hdef : cfg.default_provider = "gemini" ∨ cfg.default_provider = "chatgpt" ∨
      cfg.default_provider = "azure") :
    (∀ p, select_best_provider cfg = Except.ok p →
      query cfg net prompt "auto" sp mt tp = query cfg net prompt p sp mt tp) ∧
    (∀ e, select_best_provider cfg = Except.error e →
      query cfg net prompt "auto" sp mt tp = (Except.error e, [])) ∧
    (provider_key cfg cfg.default_provider = true →
      select_best_provider cfg = Except.ok cfg.default_provider) ∧
    (provider_key cfg cfg.default_provider = false →
      select_best_provider cfg =
        (priority_order.find? (fun p => provider_key cfg p)).elim
          (Except.error "No AI provider API keys configured") Except.ok) := by
  refine ⟨?_, ?_, ?_, ?_⟩
  · intro p hp
    have hmem := select_ok_mem cfg hp
    rcases hmem with h | h | h <;> subst h <;> simp [query, hp]
  · intro e he
    simp [query, he]
  · intro hk
    rcases hdef with h | h | h <;>
      simp_all [select_best_provider, provider_key]
  · intro hk
    rcases hdef with h | h | h <;>
      cases hg : strTruthy cfg.gemini_api_key <;>
      cases hc : strTruthy cfg.chatgpt_api_key <;>
      cases ha : strTruthy cfg.azure_openai_api_key <;>
      simp_all [select_best_provider, provider_key, priority_order, h]

/-- Witness for C1 at the spec's "in particular" input: default provider
`chatgpt`, only the Gemini key configured — the fallback selects `gemini`. -/
theorem auto_dispatch_selects_default_then_fallback_witness :
    select_best_provider Samples.cfgOnlyGemini =
      (priority_order.find? (fun p => provider_key Samples.cfgOnlyGemini p)).elim
        (Except.error "No AI provider API keys configured") Except.ok ∧
    select_best_provider Samples.cfgOnlyGemini = Except.ok "gemini" :=
  ⟨(auto_dispatch_selects_default_then_fallback Samples.cfgOnlyGemini Samples.netA
      "hi" none none none (Or.inr (Or.inl rfl))).2.2.2 (by decide),
   by rfl⟩

/-- C2: `query` with an explicit provider name whose credentials are not
configured raises immediately — the result is an error and the outbound call
trace is empty, so no backend (and no other provider) is ever invoked. -/
theorem explicit_provider_fails_without_fallback
    (cfg : AIConfig) (net : NetCall → NetResponse)
    (prompt : String) (sp : Option String) (mt : Option Int) (tp : Option ℚ)
    (p : String) (hp : p ≠ "auto")
    (hcred : is_provider_available cfg p = false) :
    (∃ e, (query cfg net prompt p sp mt tp).1 = Except.error e) ∧
    (query cfg net prompt p sp mt tp).2 = [] := by
  have hpb : (p == "auto") = false := by simp [hp]
  by_cases hg : p = "gemini"
  · subst hg
    simp [is_provider_available] at hcred
    simp [query, query_gemini, hcred]
  · by_cases hc : p = "chatgpt"
    · subst hc
      simp [is_provider_available] at hcred
      simp [query, query_chatgpt, hcred]
    · by_cases ha : p = "azure" ∨ p = "azure_openai"
      · have haz : (p == "azure" || p == "azure_openai") = true := by
          rcases ha with h | h <;> simp [h]
        simp [is_provider_available, hg, hc, haz] at hcred
        cases hA : strTruthy cfg.azure_openai_api_key <;>
          cases hB : strTruthy cfg.azure_openai_endpoint <;>
          cases hC : strTruthy cfg.azure_openai_deployment <;>
          simp_all [query, query_azure_openai, hpb, hg, hc, haz]
      · push_neg at ha
        simp [query, hpb, hg, hc, ha.1, ha.2]

/-- Witness for C2: provider `"gemini"` with no keys configured. -/
theorem explicit_provider_fails_without_fallback_witness :
    (∃ e, (query Samples.cfgNoKeys Samples.netA "hi" "gemini" none none none).1 =
      Except.error e) ∧
    (query Samples.cfgNoKeys Samples.netA "hi" "gemini" none none none).2 = [] :=
  explicit_provider_fails_without_fallback Samples.cfgNoKeys Samples.netA "hi"
    none none none "gemini" (by decide) (by decide)

/-- C4: a successful `query` made exactly one backend call; the result is the
four-field normalized record whose `provider` names the backend used, whose
`text` is the backend's text, and whose `tokens_used` mirrors the backend's
usage accounting, defaulting to 0 when none is reported. -/
theorem query_success_normalized_shape
    (cfg : AIConfig) (net : NetCall → NetResponse)
    (prompt provider : String) (sp : Option String)
    (mt : Option Int) (tp : Option ℚ) (r : AIResult) (calls : List NetCall)
    (h : query cfg net prompt provider sp mt tp = (Except.ok r, calls)) :
    ∃ call, calls = [call] ∧
      r.provider = call.provider ∧
      (call.provider = "gemini" ∨ call.provider = "chatgpt" ∨ call.provider = "azure") ∧
      r.text = (net call).text ∧
      r.tokens_used = ((net call).usage).getD 0 ∧
      ((net call).usage = none → r.tokens_used = 0) := by
  unfold query at h
  rcases hsel : (if provider == "auto" then select_best_provider cfg
      else Except.ok provider) with e | p <;> rw [hsel] at h
  · simp at h
  · dsimp only at h
    split_ifs at h with h1 h2 h3
    · obtain ⟨call, hcs, hcp, hr⟩ := query_gemini_shape cfg net prompt sp _ _ h
      exact ⟨call, hcs, by simp [hr, hcp], Or.inl hcp, by simp [hr], by simp [hr],
        fun hu => by simp [hr, hu]⟩
    · obtain ⟨call, hcs, hcp, hr⟩ := query_chatgpt_shape cfg net prompt sp _ _ h
      exact ⟨call, hcs, by simp [hr, hcp], Or.inr (Or.inl hcp), by simp [hr],
        by simp [hr], fun hu => by simp [hr, hu]⟩
    · obtain ⟨call, hcs, hcp, hr⟩ := query_azure_shape cfg net prompt sp _ _ h
      exact ⟨call, hcs, by simp [hr, hcp], Or.inr (Or.inr hcp), by simp [hr],
        by simp [hr], fun hu => by simp [hr, hu]⟩
    · simp at h

/-- Witness for C4 at a concrete successful Gemini query. -/
theorem query_success_normalized_shape_witness :
    ∃ call, ([(⟨"gemini", "hi", none, 2000, 1⟩ : NetCall)] = [call]) ∧
      (⟨"ok", "gemini", "gemini-pro", 0⟩ : AIResult).provider = call.provider ∧
      (call.provider = "gemini" ∨ call.provider = "chatgpt" ∨ call.provider = "azure") ∧
      (⟨"ok", "gemini", "gemini-pro", 0⟩ : AIResult).text = (Samples.netA call).text ∧
      (⟨"ok", "gemini", "gemini-pro", 0⟩ : AIResult).tokens_used =
        ((Samples.netA call).usage).getD 0 ∧
      ((Samples.netA call).usage = none →
        (⟨"ok", "gemini", "gemini-pro", 0⟩ : AIResult).tokens_used = 0) :=
  query_success_normalized_shape Samples.cfgOnlyGemini Samples.netA "hi" "gemini"
    none none none ⟨"ok", "gemini", "gemini-pro", 0⟩
    [⟨"gemini", "hi", none, 2000, 1⟩] (by rfl)

/-- C10: a falsy caller override (`None` or zero) is replaced by the
configured default independently for each parameter, whatever the other
override is: a falsy `max_tokens` behaves as if no `max_tokens` override had
been passed and every backend call carries the default `max_tokens`; a falsy
`temperature` behaves as if no `temperature` override had been passed and
every backend call carries the default `temperature` — in particular
temperature 0 cannot be requested, regardless of `max_tokens`. -/
theorem falsy_overrides_replaced_by_defaults
    (cfg : AIConfig) (net : NetCall → NetResponse)
    (prompt provider : String) (sp : Option String)
    (mt : Option Int) (tp : Option ℚ) :
    (mt = none ∨ mt = some 0 →
      query cfg net prompt provider sp mt tp =
        query cfg net prompt provider sp none tp ∧
      ∀ call ∈ (query cfg net prompt provider sp mt tp).2,
        call.max_tokens = cfg.max_tokens) ∧
    (tp = none ∨ tp = some 0 →
      query cfg net prompt provider sp mt tp =
        query cfg net prompt provider sp mt none ∧
      ∀ call ∈ (query cfg net prompt provider sp mt tp).2,
        call.temperature = cfg.temperature) := by
  constructor
  · intro hmt
    have h1 : pyOrInt mt cfg.max_tokens = cfg.max_tokens := by
      rcases hmt with rfl | rfl <;> simp [pyOrInt]
    constructor
    · unfold query
      rw [h1]
      rfl
    · intro call hc
      have h := query_call_params cfg net prompt provider sp mt tp call hc
      rw [h1] at h
      exact h.1
  · intro htp
    have h2 : pyOrRat tp cfg.temperature = cfg.temperature := by
      rcases htp with rfl | rfl <;> simp [pyOrRat]
    constructor
    · unfold query
      rw [h2]
      rfl
    · intro call hc
      have h := query_call_params cfg net prompt provider sp mt tp call hc
      rw [h2] at h
      exact h.2

/-- Witness for C10 at the mixed case the claim singles out: a truthy
`max_tokens=500` together with `temperature=0` — the temperature override
alone is replaced by the default. -/
theorem falsy_overrides_replaced_by_defaults_witness :
    query Samples.cfgOnlyGemini Samples.netA "hi" "gemini" none (some 500) (some 0) =
      query Samples.cfgOnlyGemini Samples.netA "hi" "gemini" none (some 500) none ∧
    ∀ call ∈ (query Samples.cfgOnlyGemini Samples.netA "hi" "gemini" none
        (some 500) (some 0)).2,
      call.temperature = Samples.cfgOnlyGemini.temperature :=
  (falsy_overrides_replaced_by_defaults Samples.cfgOnlyGemini Samples.netA "hi"
    "gemini" none (some 500) (some 0)).2 (Or.inr rfl)

end AIHelper

/-! ### Association-list helper lemmas -/

lemma dictLookup_append_single (d : List (String × String)) (k v : String)
    (h : dictLookup d k = none) :
    dictLookup (d ++ [(k, v)]) k = some v := by
  have hf : d.find? (fun kv => kv.1 == k) = none := by
    rcases hx : d.find? (fun kv => kv.1 == k) with _ | kv
    · exact hx
    · unfold dictLookup at h
      rw [hx] at h
      simp at h
  unfold dictLookup
  rw [List.find?_append, hf]
  simp

lemma dictUpdate_nil (d : List (String × String)) : dictUpdate d [] = d := by
  simp [dictUpdate, dictLookup]

namespace Docker

lemma lookupClient_append_self (l : List (String × Nat)) (h : String) (c : Nat)
    (hl : lookupClient l h = none) :
    lookupClient (l ++ [(h, c)]) h = some c := by
  have hf : l.find? (fun kv => kv.1 == h) = none := by
    rcases hx : l.find? (fun kv => kv.1 == h) with _ | kv
    · exact hx
    · unfold lookupClient at hl
      rw [hx] at hl
      simp at hl
  unfold lookupClient
  rw [List.find?_append, hf]
  simp

lemma lookupClient_append_other (l : List (String × Nat)) (h h2 : String) (c : Nat)
    (hne : h2 ≠ h) :
    lookupClient (l ++ [(h, c)]) h2 = lookupClient l h2 := by
  unfold lookupClient
  rw [List.find?_append]
  have hbe : (h == h2) = false := by simp [Ne.symm hne]
  have hone : ([(h, c)].find? (fun kv => kv.1 == h2)) = none := by
    simp [List.find?, hbe]
  rw [hone]
  simp

/-- C9: the Docker client factory constructs at most one client per host
string — after a call that returned client `c` for `host` in state `s1`, a
second `_get_client` for the same host returns the identical handle `c` with
the state (hence the cache and the construction trace) unchanged, and the
first call left every other host's cache entry untouched. -/
theorem get_client_cached_second_call
    (mkFails : String → Bool) (s : DockerState) (host : String)
    (c : Nat) (s1 : DockerState)
    (h : get_client mkFails s host = (Except.ok c, s1)) :
    get_client mkFails s1 host = (Except.ok c, s1) ∧
    ∀ h2, h2 ≠ host → lookupClient s1.clients h2 = lookupClient s.clients h2 := by
  unfold get_client at h ⊢
  rcases hl : lookupClient s.clients host with _ | c0 <;> rw [hl] at h
  · dsimp only at h
    split_ifs at h with hf
    · simp at h
    · simp only [Prod.mk.injEq, Except.ok.injEq] at h
      obtain ⟨hc, hs⟩ := h
      subst hc
      subst hs
      constructor
      · rw [lookupClient_append_self s.clients host s.next_id hl]
      · intro h2 hne
        exact lookupClient_append_other s.clients host h2 s.next_id hne
  · dsimp only at h
    simp only [Prod.mk.injEq, Except.ok.injEq] at h
    obtain ⟨hc, hs⟩ := h
    subst hc
    subst hs
    constructor
    · rw [hl]
    · intro h2 _
      rfl

/-- Witness for C9: first call on a fresh state constructs and caches the
client for host `"local"`; the theorem then applies to the resulting state. -/
theorem get_client_cached_second_call_witness :
    get_client Samples.dockerOk
        ⟨[("local", 0)], 1, ["unix:///var/run/docker.sock"]⟩ "local" =
      (Except.ok 0, ⟨[("local", 0)], 1, ["unix:///var/run/docker.sock"]⟩) ∧
    ∀ h2, h2 ≠ "local" →
      lookupClient (⟨[("local", 0)], 1,
          ["unix:///var/run/docker.sock"]⟩ : DockerState).clients h2 =
        lookupClient Samples.dockerS0.clients h2 :=
  get_client_cached_second_call Samples.dockerOk Samples.dockerS0 "local" 0
    ⟨[("local", 0)], 1, ["unix:///var/run/docker.sock"]⟩ (by rfl)

end Docker

/-! ### Setup-time configuration validation (C3, C8) -/

/-- C3 (amended): the NetBox plugin validates its mandatory configuration at
setup: when `base_url` or `api_token` is missing/empty, `async_setup` returns
`False` and registers zero services. -/
theorem netbox_setup_missing_config_fails (cfg : NetBox.NbConfig)
    (h : rstripSlash (cfg.base_url.getD "") = "" ∨ cfg.api_token.getD "" = "") :
    NetBox.async_setup cfg = (false, []) := by
  unfold NetBox.async_setup
  rcases h with h | h <;> simp [h]

/-- Witness for C3's amended theorem at the empty NetBox configuration. -/
theorem netbox_setup_missing_config_fails_witness :
    NetBox.async_setup Samples.nbEmpty = (false, []) :=
  netbox_setup_missing_config_fails Samples.nbEmpty (Or.inl (by rfl))

/-- Counterexample to C3 as stated: the Mattermost and Slack plugins, called
with completely empty configuration (all mandatory keys missing), still
return `True` and register all of their services. -/
theorem setup_missing_config_counterexample :
    Mattermost.async_setup ⟨none, none⟩ =
      (true, ["send_message", "create_channel", "get_user"]) ∧
    SlackNotifications.async_setup ⟨none, none⟩ =
      (true, ["send_message", "send_alert"]) :=
  ⟨rfl, rfl⟩

/-- C8: the Graph-based Exchange plugin's setup is a hard failure when the
dependency lookup returns no instance: `async_setup` returns `False` and
registers zero services. -/
theorem graph_exchange_setup_requires_dependency {G : Type}
    (dep : Option G) (h : dep = none) :
    GraphExchange.async_setup dep = (false, []) := by
  subst h
  rfl

/-- Witness for C8 at a concrete absent dependency. -/
theorem graph_exchange_setup_requires_dependency_witness :
    GraphExchange.async_setup (none : Option Unit) = (false, []) :=
  graph_exchange_setup_requires_dependency (none : Option Unit) rfl

/-! ### Messaging handlers (C7) -/

/-- C7 (amended): the Mattermost `send_message` handler raises before any
network call when the `message` field is missing or empty — the result is an
error and the outbound trace is empty. -/
theorem mattermost_send_message_requires_message
    (cfg : Mattermost.MmConfig) (http : Mattermost.MmPost → Mattermost.MmResponse)
    (data : Mattermost.MessageData)
    (hmsg : data.message.getD "" = "") :
    (∃ e, (Mattermost.send_message cfg http data).1 = Except.error e) ∧
    (Mattermost.send_message cfg http data).2 = [] := by
  rcases hb : Mattermost.get_base_url cfg with e | b <;>
    simp [Mattermost.send_message, hb, hmsg]

/-- Witness for C7's amended theorem: a fully configured Mattermost plugin
and a request with no `message` field. -/
theorem mattermost_send_message_requires_message_witness :
    (∃ e, (Mattermost.send_message Samples.mmCfg Samples.mmHttpOk
        Samples.mmNoMessage).1 = Except.error e) ∧
    (Mattermost.send_message Samples.mmCfg Samples.mmHttpOk Samples.mmNoMessage).2 = [] :=
  mattermost_send_message_requires_message Samples.mmCfg Samples.mmHttpOk
    Samples.mmNoMessage rfl

/-- Counterexample to C7 as stated: the Slack `send_message` handler does not
validate the `message` field — with `webhook_url` configured and `message`
missing it performs the network call (non-empty trace, empty text posted) and
reports success. -/
theorem slack_send_message_counterexample :
    (SlackNotifications.send_message Samples.slackCfg Samples.slackHttpOk
        Samples.slackNoMessage).2 =
      [⟨"https://hooks.example/x", ⟨"#general", "", "faneX-ID", ":robot_face:"⟩⟩] ∧
    (SlackNotifications.send_message Samples.slackCfg Samples.slackHttpOk
        Samples.slackNoMessage).1 = Except.ok ⟨"sent", "#general"⟩ :=
  ⟨rfl, rfl⟩

/-! ### Generic webhook (C6) -/

/-- C6: a `send_webhook` request `\x7burl, method: POST, payload\x7d` against
an accepting server performs exactly one POST to that URL carrying the
payload as JSON body under a `Content-Type: application/json` header, and
returns the `sent` envelope with the server's status code. -/
theorem send_webhook_post_success
    (cfg : WebhookGeneric.WhConfig) (http : WebhookGeneric.WhRequest → HttpResponse)
    (u : String) (p : JVal)
    (hu : u ≠ "")
    (hct : dictLookup cfg.default_headers "Content-Type" = none)
    (hacc : ∀ r, (http r).status_code < 400) :
    ∃ req, WebhookGeneric.send_webhook cfg http ⟨some u, some "POST", some p, none⟩ =
        (Except.ok ⟨"sent", (http req).status_code,
          if (http req).text == "" then none
          else some ((http req).text.take 500)⟩, [req]) ∧
      req.method = "POST" ∧ req.url = u ∧ req.json_body = some p ∧
      dictLookup req.headers "Content-Type" = some "application/json" := by
  refine ⟨⟨"POST", u, some p, none,
    cfg.default_headers ++ [("Content-Type", "application/json")]⟩, ?_, rfl, rfl, rfl, ?_⟩
  · unfold WebhookGeneric.send_webhook
    have hsu : strTruthy (some u) = true := by simp [strTruthy, hu]
    have hpy : pyOrStr (some u) cfg.default_url = some u := by simp [pyOrStr, hsu]
    have hup : pyUpper "POST" = "POST" := by decide
    have hnle : ¬ ((http ⟨"POST", u, some p, none,
        cfg.default_headers ++ [("Content-Type", "application/json")]⟩).status_code ≥ 400) := by
      have := hacc ⟨"POST", u, some p, none,
        cfg.default_headers ++ [("Content-Type", "application/json")]⟩
      omega
    simp [hpy, hsu, hup, dictUpdate_nil, hct, dictSet, hnle]
  · exact dictLookup_append_single cfg.default_headers "Content-Type" "application/json" hct

/-- Witness for C6 at the spec's end-to-end request against a 200 server. -/
theorem send_webhook_post_success_witness :
    ∃ req, WebhookGeneric.send_webhook Samples.whCfg Samples.whHttpOk Samples.whData =
        (Except.ok ⟨"sent", (Samples.whHttpOk req).status_code,
          if (Samples.whHttpOk req).text == "" then none
          else some ((Samples.whHttpOk req).text.take 500)⟩, [req]) ∧
      req.method = "POST" ∧ req.url = "https://example.test/hook" ∧
      req.json_body = some (JVal.obj [("a", JVal.num 1)]) ∧
      dictLookup req.headers "Content-Type" = some "application/json" :=
  send_webhook_post_success Samples.whCfg Samples.whHttpOk
    "https://example.test/hook" (JVal.obj [("a", JVal.num 1)])
    (by decide) (by rfl) (fun _ => by simp [Samples.whHttpOk])

/-! ### JSON extraction (C5) -/

namespace AIAssistant

lemma firstIdxOf_append_head (l1 t : List Char) (c : Char) (h1 : c ∉ l1) :
    firstIdxOf (l1 ++ c :: t) c = some l1.length := by
  induction l1 with
  | nil => simp [firstIdxOf]
  | cons a l ih =>
    have hne : (a == c) = false := by
      apply beq_eq_false_iff_ne.mpr
      rintro rfl
      exact h1 (List.mem_cons_self _ _)
    have h1' : c ∉ l := fun hc => h1 (List.mem_cons_of_mem a hc)
    simp [firstIdxOf, hne, ih h1']

lemma braceSpanList_split (p b q : List Char)
    (hp : '{' ∉ p) (hq : '}' ∉ q)
    (hhead : b.head? = some '{') (hlast : b.getLast? = some '}') :
    braceSpanList (p ++ b ++ q) = some b := by
  obtain ⟨bt, rfl⟩ : ∃ bt, b = '{' :: bt := by
    rcases b with _ | ⟨x, bt⟩
    · simp at hhead
    · simp only [List.head?_cons, Option.some.injEq] at hhead
      exact ⟨bt, by rw [hhead]⟩
  obtain ⟨br, hbr⟩ : ∃ br, ('{' :: bt).reverse = '}' :: br := by
    have hh : ('{' :: bt).reverse.head? = some '}' := by
      rw [List.head?_reverse]
      exact hlast
    rcases hr : ('{' :: bt).reverse with _ | ⟨x, br⟩
    · rw [hr] at hh
      simp at hh
    · rw [hr] at hh
      simp only [List.head?_cons, Option.some.injEq] at hh
      exact ⟨br, by rw [hh]⟩
  have hbt : 1 ≤ bt.length := by
    rcases bt with _ | ⟨y, yt⟩
    · simp only [List.getLast?_singleton, Option.some.injEq] at hlast
      exact absurd hlast (by decide)
    · simp
  have hi : firstIdxOf (p ++ '{' :: bt ++ q) '{' = some p.length := by
    rw [show p ++ '{' :: bt ++ q = p ++ '{' :: (bt ++ q) by simp]
    exact firstIdxOf_append_head p (bt ++ q) '{' hp
  have hj : firstIdxOf ((p ++ '{' :: bt ++ q).reverse) '}' = some q.length := by
    rw [show (p ++ '{' :: bt ++ q).reverse =
      q.reverse ++ ('{' :: bt).reverse ++ p.reverse by simp]
    rw [hbr]
    rw [show q.reverse ++ '}' :: br ++ p.reverse =
      q.reverse ++ '}' :: (br ++ p.reverse) by simp]
    have hq' : '}' ∉ q.reverse := by simpa using hq
    simpa using firstIdxOf_append_head q.reverse (br ++ p.reverse) '}' hq'
  unfold braceSpanList lastIdxOf
  rw [hi, hj]
  simp only [Option.map_some']
  have hlength : (p ++ '{' :: bt ++ q).length = p.length + (bt.length + 1) + q.length := by
    simp
    omega
  rw [hlength]
  have harith : p.length + (bt.length + 1) + q.length - 1 - q.length =
      p.length + bt.length := by omega
  rw [harith]
  have hcond : p.length < p.length + bt.length := by omega
  rw [if_pos hcond]
  have hdrop : (p ++ '{' :: bt ++ q).drop p.length = '{' :: bt ++ q := by
    rw [show p ++ '{' :: bt ++ q = p ++ ('{' :: bt ++ q) by simp]
    exact List.drop_left _ _
  rw [hdrop]
  have harith2 : p.length + bt.length - p.length + 1 = bt.length + 1 := by omega
  rw [harith2]
  have htake : (('{' :: bt ++ q) : List Char).take (bt.length + 1) = '{' :: bt := by
    rw [show ('{' : Char) :: bt ++ q = ('{' :: bt) ++ q by simp]
    exact List.take_left' (by simp)
  rw [htake]

/-- C5 (amended): the extraction locates `re.search`'s first greedy match —
the span from the first opening brace to the last closing brace — so on a
text whose only braces delimit a single parseable block, that block's parse
is returned; and the extraction is best-effort: there are inputs with a
brace-delimited span (for example several JSON-like blocks, over which the
greedy span extends and fails to parse) where the result is `None` rather
than the first block. -/
theorem extract_json_first_brace_block
    (pre block post : String) (v : JVal)
    (hpre : '{' ∉ pre.toList) (hpost : '}' ∉ post.toList)
    (hhead : block.toList.head? = some '{')
    (hlast : block.toList.getLast? = some '}')
    (hparse : json_loads block = some v) :
    extract_json_from_response (pre ++ block ++ post) = some v ∧
    brace_span (pre ++ block ++ post) = some block ∧
    ∃ s, (brace_span s).isSome ∧ extract_json_from_response s = none := by
  have hspanl : braceSpanList ((pre ++ block ++ post).toList) = some block.toList := by
    rw [show (pre ++ block ++ post).toList =
      pre.toList ++ block.toList ++ post.toList by simp]
    exact braceSpanList_split pre.toList block.toList post.toList hpre hpost hhead hlast
  have hspan : brace_span (pre ++ block ++ post) = some block := by
    unfold brace_span
    rw [hspanl]
    rfl
  refine ⟨?_, hspan, "x \x7b\"a\": 1\x7d y \x7b\"b\": 2\x7d z", by rfl, by rfl⟩
  simp only [extract_json_from_response, hspan, hparse]

/-- Witness for C5's amended theorem: a single JSON block surrounded by prose
is located and parsed. -/
theorem extract_json_first_brace_block_witness :
    extract_json_from_response ("Sure: " ++ "\x7b\"a\": 1\x7d" ++ " done.") =
      some (JVal.obj [("a", JVal.num 1)]) ∧
    brace_span ("Sure: " ++ "\x7b\"a\": 1\x7d" ++ " done.") = some "\x7b\"a\": 1\x7d" ∧
    ∃ s, (brace_span s).isSome ∧ extract_json_from_response s = none :=
  extract_json_first_brace_block "Sure: " "\x7b\"a\": 1\x7d" " done."
    (JVal.obj [("a", JVal.num 1)]) (by decide) (by decide) (by decide) (by decide)
    (by rfl)

/-- Counterexample to C5 as stated: with two JSON-like blocks the extraction
does not take the first block — the greedy span runs from the first `\x7b` to
the last `\x7d`, covers both blocks, fails to parse, and the result is
`None`, although the first block alone parses. -/
theorem extract_json_multiple_blocks_counterexample :
    extract_json_from_response "x \x7b\"a\": 1\x7d y \x7b\"b\": 2\x7d z" = none ∧
    json_loads "\x7b\"a\": 1\x7d" = some (JVal.obj [("a", JVal.num 1)]) ∧
    brace_span "x \x7b\"a\": 1\x7d y \x7b\"b\": 2\x7d z" =
      some "\x7b\"a\": 1\x7d y \x7b\"b\": 2\x7d" :=
  ⟨rfl, rfl, rfl⟩

end AIAssistant

end Integrations
